import Mathlib

set_option maxRecDepth 8192

/-!
Shallow embedding of the SMTP protocol engine in src/mysmtpd.c and
verification of its specification claims.

Modelling conventions:
- C strings become `List Char`; reply lines become `String`.
- `ms->words` / `ms->nwords` are passed to each handler as a
  `words : List (List Char)` argument (the C stores them in the session
  struct right before dispatch); `words.length` plays the role of `nwords`.
- `user_list_t` (mailuser.h, not under src/) is modelled from the spec:
  an optional list of addresses, `none` standing for a NULL pointer;
  `user_list_create` gives the empty list, `user_list_add` appends,
  `user_list_destroy` returns the buffer to NULL.
- the Line Reader (`nb_read_line`) is modelled by handing the DATA loop the
  list of raw lines still available on the stream; an exhausted list is a
  read failure / end of stream.
- paths through undefined behavior (reading the receive buffer at index -1,
  re-entering a loop after a failed read because the `size_t` guard cannot
  be false) produce `none`: the C code has no defined result there.
-/

/-- C `isspace` on the ASCII characters that can occur in a line. -/
def isspaceC (c : Char) : Bool :=
  c == ' ' || c == '\t' || c == '\n' || c == '\x0b' || c == '\x0c' || c == '\r'

/-- C `tolower` on ASCII. -/
def tolowerC (c : Char) : Char :=
  if 'A' ≤ c ∧ c ≤ 'Z' then Char.ofNat (c.toNat + 32) else c

/-- `strncasecmp(a, b, n) == 0`: the first `n` characters agree up to case
(a string shorter than `n` yields a shorter take, hence inequality, matching
the NUL-terminator mismatch in C). -/
def strncaseEq (a b : List Char) (n : Nat) : Bool :=
  ((a.take n).map tolowerC) == ((b.take n).map tolowerC)

/-- The trailing-whitespace stripping loop of mysmtpd.c, lines 500-501 (in
`handle_client`) and lines 361-362 (in `do_data`):
`while (isspace(recvbuf[len - 1])) recvbuf[--len] = 0;`
scanned here from the end of the buffer. When `len` reaches 0 the C guard
evaluates `recvbuf[-1]`, an access below index 0 with no defined result:
that case is `none`. -/
def stripLoopRev : List Char → Option (List Char)
  | [] => none
  | c :: rest => if isspaceC c then stripLoopRev rest else some (c :: rest)

/-- Strip trailing CR/LF and whitespace from a line; `none` when the loop
reads below index 0 (line entirely whitespace). -/
def stripTrailingC (l : List Char) : Option (List Char) :=
  (stripLoopRev l.reverse).map List.reverse

/-- The `State` enum of mysmtpd.c, lines 14-22. Spec names: Init = Init,
Executed_Helo = Greeted, Mail_transaction_open = MailOpen,
Recipient_provided = RecipientProvided, Data_input = DataPhase,
Data_input_done = DataComplete. -/
inductive State
  | Init
  | Executed_Helo
  | Mail_transaction_open
  | Recipient_provided
  | Data_input
  | Data_input_done
deriving DecidableEq

/-- The session-scoped part of `struct smtp_state` (mysmtpd.c lines 24-36).
Modelled from the spec: the `user_list_t` buffers are optional address
lists (`none` = NULL pointer), insertion order preserved. -/
structure smtp_state where
  state : State
  reverse_path_buffer : Option (List (List Char))
  forward_path_buffer : Option (List (List Char))
  mail_data_buffer : Option (List Char)
deriving DecidableEq

/-- The recipient list the spec calls `recipients`: the contents of the
forward-path buffer, empty when the buffer is NULL. -/
def recipients (ms : smtp_state) : List (List Char) :=
  ms.forward_path_buffer.getD []

-- Reply lines, exactly as produced by the send_formatted calls in mysmtpd.c.

def reply501params : String := "501 Syntax error in parameters or arguments\r\n"

def reply501args : String := "501 Syntax error in arguments\r\n"

def reply503wrong : String := "503 Wrong sequence of commands\r\n"

def reply250mail : String := "250 ok (mail)\r\n"

def reply250rcpt : String := "250 OK (rcpt)\r\n"

def reply550 (user : List Char) : String :=
  "550 No such user - " ++ String.mk user ++ "\r\n"

def reply354 : String := "354 Start mail input; end with <CRLF>.<CRLF>\r\n"

def reply250data : String := "250 OK data done\r\n"

def reply250rset : String := "250 State reset\r\n"

def reply250noop : String := "250 OK (noop)\r\n"

def reply221quit : String := "221 Service closing transmission channel.\r\n"

def reply250helo (nodename : String) : String := "250 " ++ nodename ++ "\r\n"

/-- The reply sent after the DATA loop, mysmtpd.c line 429:
`send_formatted(ms->fd, "501\n");` (dead code: the loop guard above it can
never be false). -/
def data_eof_reply : String := "501\n"

/-- The return value after the DATA loop, mysmtpd.c line 430 (`return 1`,
i.e. Reject, not the -1 that makes `handle_client` end the session). -/
def data_eof_ret : Int := 1

/-- Result of one command handler: the new session state, the C return code
(-1 exit, 0 success, 1 failure) and the reply lines sent. -/
structure CmdRes where
  ms : smtp_state
  ret : Int
  replies : List String
deriving DecidableEq

/-- `clear_buffers`, mysmtpd.c lines 57-74: all three buffers back to NULL. -/
def clear_buffers (ms : smtp_state) : smtp_state :=
  { ms with reverse_path_buffer := none, forward_path_buffer := none,
            mail_data_buffer := none }

/-- `do_quit`, mysmtpd.c lines 107-114. -/
def do_quit (ms : smtp_state) : CmdRes :=
  ⟨ms, -1, [reply221quit]⟩

/-- `do_noop`, mysmtpd.c lines 434-439. -/
def do_noop (ms : smtp_state) : CmdRes :=
  ⟨ms, 0, [reply250noop]⟩

/-- `do_helo`, mysmtpd.c lines 122-149: argument count first (501), then
state (503), then transition to Executed_Helo with the three buffer
pointers set to NULL. -/
def do_helo (nodename : String) (ms : smtp_state) (words : List (List Char)) : CmdRes :=
  if words.length ≠ 2 then ⟨ms, 1, [reply501args]⟩
  else if ms.state ≠ State.Init then ⟨ms, 1, [reply503wrong]⟩
  else ⟨⟨State.Executed_Helo, none, none, none⟩, 0, [reply250helo nodename]⟩

/-- `do_rset`, mysmtpd.c lines 167-187: argument count first; outside Init,
clear the buffers and go to Executed_Helo; always reply 250 and return 1. -/
def do_rset (ms : smtp_state) (words : List (List Char)) : CmdRes :=
  if words.length ≠ 1 then ⟨ms, 1, [reply501args]⟩
  else if ms.state ≠ State.Init then
    ⟨{ clear_buffers ms with state := State.Executed_Helo }, 1, [reply250rset]⟩
  else ⟨ms, 1, [reply250rset]⟩

/-- `do_vrfy`, mysmtpd.c lines 445-467, with the User Directory oracle
`is_valid_user` as a parameter. -/
def do_vrfy (valid : List Char → Bool) (ms : smtp_state) (words : List (List Char)) : CmdRes :=
  if words.length ≠ 2 then ⟨ms, 1, [reply501params]⟩
  else if valid (words.getD 1 []) then
    ⟨ms, 0, ["250 <" ++ String.mk (words.getD 1 []) ++ ">\r\n"]⟩
  else ⟨ms, 0, [reply550 (words.getD 1 [])]⟩

/-- The MAIL argument test of mysmtpd.c line 211:
`strncasecmp(w, "FROM:<", 6) != 0 || w[strlen(w) - 1] != '>'` (negated).
The last-character read is guarded by C short-circuiting: it is only
reached when the six-character case-insensitive match succeeded, so the
word is then non-empty and `getLastD` is faithful. -/
def mailArgOK (w : List Char) : Bool :=
  strncaseEq w ("FROM:<".toList) 6 && (w.getLastD ' ' == '>')

/-- The RCPT argument test of mysmtpd.c line 274. -/
def rcptArgOK (w : List Char) : Bool :=
  strncaseEq w ("TO:<".toList) 4 && (w.getLastD ' ' == '>')

/-- `int strlength = strlen(w) - 7` as computed (signed) in mysmtpd.c
lines 227-228. -/
def mailSliceLen (w : List Char) : Int := (w.length : Int) - 7

/-- `int strlength = strlen(w) - 5` as computed (signed) in mysmtpd.c
lines 290-291. -/
def rcptSliceLen (w : List Char) : Int := (w.length : Int) - 5

/-- The interior slice `strncpy(reverse_path, w + 6, strlen(w) - 7)` of
mysmtpd.c lines 229-231. -/
def parseMailPath (w : List Char) : List Char :=
  (w.drop 6).take (w.length - 7)

/-- The interior slice `strncpy(forward_path, w + 4, strlen(w) - 5)` of
mysmtpd.c lines 292-294. -/
def parseRcptPath (w : List Char) : List Char :=
  (w.drop 4).take (w.length - 5)

/-- `do_mail`, mysmtpd.c lines 201-252: argument count, then argument shape
(both 501), then state (503); on success clear all buffers, then create the
reverse-path list and add the parsed path to it, reply 250, state
Mail_transaction_open. -/
def do_mail (ms : smtp_state) (words : List (List Char)) : CmdRes :=
  if words.length ≠ 2 then ⟨ms, 1, [reply501params]⟩
  else if mailArgOK (words.getD 1 []) = false then ⟨ms, 1, [reply501params]⟩
  else if ms.state = State.Executed_Helo ∨ ms.state = State.Data_input_done then
    ⟨⟨State.Mail_transaction_open, some [parseMailPath (words.getD 1 [])],
      none, none⟩, 0, [reply250mail]⟩
  else ⟨ms, 1, [reply503wrong]⟩

/-- `do_rcpt`, mysmtpd.c lines 264-315: argument count, then shape (both
501), then state (503), then the User Directory check (550 on failure); on
success append the parsed path to the forward-path buffer (created empty if
NULL), state Recipient_provided, reply 250. -/
def do_rcpt (valid : List Char → Bool) (ms : smtp_state) (words : List (List Char)) : CmdRes :=
  if words.length ≠ 2 then ⟨ms, 1, [reply501params]⟩
  else if rcptArgOK (words.getD 1 []) = false then ⟨ms, 1, [reply501params]⟩
  else if ms.state = State.Mail_transaction_open ∨ ms.state = State.Recipient_provided then
    if valid (parseRcptPath (words.getD 1 [])) then
      ⟨{ ms with
          forward_path_buffer :=
            some ((ms.forward_path_buffer.getD []) ++ [parseRcptPath (words.getD 1 [])]),
          state := State.Recipient_provided }, 0, [reply250rcpt]⟩
    else ⟨ms, 1, [reply550 (parseRcptPath (words.getD 1 []))]⟩
  else ⟨ms, 1, [reply503wrong]⟩

/-- CRLF appended after each body line, mysmtpd.c lines 422-425. -/
def crlf : List Char := ['\r', '\n']

/-- Appending one stripped body line to `mail_data_buffer`, mysmtpd.c lines
395-420 plus the CRLF of lines 422-425. When the buffer is NULL (the malloc
branch, lines 395-402) the line is copied verbatim: the leading-dot check
of line 406 exists only in the realloc branch taken for later lines. -/
def appendBody : Option (List Char) → List Char → List Char
  | none, s => s ++ crlf
  | some b, s =>
    if s.headD ' ' == '.' then b ++ s.tail ++ crlf
    else b ++ s ++ crlf

/-- Result of a DATA command: handler result plus, when the terminator was
reached, the body bytes and the recipient list handed to the Mail Store
(`write` of the buffer and `save_user_mail`, mysmtpd.c lines 371-383). -/
structure DataRes where
  res : CmdRes
  delivered : Option (List Char × Option (List (List Char)))
deriving DecidableEq

/-- The DATA accumulation loop, mysmtpd.c lines 353-427, over the list of
raw lines still available from the Line Reader. An exhausted list is a
failed read: because `len` is a `size_t`, the guard `len >= 0` of line 353
is still true there and the loop body runs on an undefined value, so that
case has no defined result (`none`); likewise a line the stripping loop
cannot process (all whitespace). On the terminator line the buffers are
cleared and the state becomes Data_input_done. -/
def dataLoop (ms : smtp_state) : List (List Char) → Option DataRes
  | [] => none
  | l :: rest =>
    if l.length = 0 then dataLoop ms rest
    else
      match stripTrailingC l with
      | none => none
      | some s =>
        if s = ['.'] then
          some ⟨⟨⟨State.Data_input_done, none, none, none⟩, 0, [reply250data]⟩,
                some (ms.mail_data_buffer.getD [], ms.forward_path_buffer)⟩
        else
          dataLoop { ms with mail_data_buffer := some (appendBody ms.mail_data_buffer s) } rest

/-- `do_data`, mysmtpd.c lines 327-431: argument count (501), then state
(503), then the 354 interim reply and the accumulation loop. -/
def do_data (ms : smtp_state) (words : List (List Char)) (lines : List (List Char)) :
    Option DataRes :=
  if words.length ≠ 1 then some ⟨⟨ms, 1, [reply501params]⟩, none⟩
  else if ms.state = State.Recipient_provided then
    match dataLoop { ms with state := State.Data_input } lines with
    | none => none
    | some dr => some ⟨⟨dr.res.ms, dr.res.ret, reply354 :: dr.res.replies⟩, dr.delivered⟩
  else some ⟨⟨ms, 1, [reply503wrong]⟩, none⟩

/-- The value stored in the `size_t` variable `len` when `nb_read_line`
returns `r` (mysmtpd.c lines 353 and 483): conversion to an unsigned
64-bit integer. -/
def sizeTVal (r : Int) : Nat := (r % (2 ^ 64 : Int)).toNat

/-- The loop guard `(len = nb_read_line(...)) >= 0` of mysmtpd.c lines 353
and 483, where `len` has the unsigned type `size_t`. -/
def nbReadLoopGuard (r : Int) : Bool := decide (0 ≤ sizeTVal r)

/-- `MAX_LINE_LENGTH`, mysmtpd.c line 12; `recvbuf` holds
`MAX_LINE_LENGTH + 1` bytes. -/
def MAX_LINE_LENGTH : Nat := 1024

/-- The reply format the specification requires (§4.5/§7): a three-digit
status code, a single space, free text, then a CRLF line terminator. -/
def wellFormedReply (s : String) : Bool :=
  let cs := s.toList
  decide (6 ≤ cs.length) && (cs.take 3).all Char.isDigit &&
    (cs.getD 3 ' ' == ' ') && ((cs.drop (cs.length - 2)) == ['\r', '\n'])

/-- One dispatched command, at the granularity of `handle_client`
(mysmtpd.c lines 509-562). A DATA command carries the raw lines the Line
Reader will serve during the accumulation loop. -/
inductive Cmd
  | helo (ws : List (List Char))
  | mail (ws : List (List Char))
  | rcpt (ws : List (List Char))
  | data (ws : List (List Char)) (lines : List (List Char))
  | rset (ws : List (List Char))
  | vrfy (ws : List (List Char))
  | noop
  | quit
  | unrecognized
  | notImplemented

/-- Effect of one dispatched command on the session state. `none` means the
session has no further state: QUIT, or a DATA phase the C loop cannot leave
normally. -/
def stepCmd (valid : List Char → Bool) (nodename : String) (ms : smtp_state) :
    Cmd → Option smtp_state
  | Cmd.helo ws => some (do_helo nodename ms ws).ms
  | Cmd.mail ws => some (do_mail ms ws).ms
  | Cmd.rcpt ws => some (do_rcpt valid ms ws).ms
  | Cmd.data ws lines => (do_data ms ws lines).map (fun dr => dr.res.ms)
  | Cmd.rset ws => some (do_rset ms ws).ms
  | Cmd.vrfy ws => some (do_vrfy valid ms ws).ms
  | Cmd.noop => some ms
  | Cmd.quit => none
  | Cmd.unrecognized => some ms
  | Cmd.notImplemented => some ms

/-- The session state at entry to the command loop (`handle_client`,
mysmtpd.c line 477): state Init, all buffers treated as empty (no command
reachable before HELO touches them). -/
def initMS : smtp_state := ⟨State.Init, none, none, none⟩

/-- Run a sequence of dispatched commands from a given session state. -/
def runCmds (valid : List Char → Bool) (nodename : String) :
    smtp_state → List Cmd → Option smtp_state
  | ms, [] => some ms
  | ms, c :: cs =>
    match stepCmd valid nodename ms c with
    | none => none
    | some ms2 => runCmds valid nodename ms2 cs

-- Concrete session states used in closed evaluations.

/-- A session in state Recipient_provided with one recipient. -/
def msRP : smtp_state :=
  ⟨State.Recipient_provided, some ["a@b".toList], some ["alice".toList], none⟩

/-- A session in state Executed_Helo (spec: Greeted) with empty buffers. -/
def msGreeted : smtp_state := ⟨State.Executed_Helo, none, none, none⟩

/-- C1: In the DATA accumulator, a body line beginning with '.' only has its
leading dot removed when it is NOT the first body line: the claim's own
example ["Hello", ".World", "."] does deliver "Hello\r\nWorld\r\n" and end
in Data_input_done, but when ".World" is the FIRST body line the malloc
branch (mysmtpd.c lines 395-402) copies it verbatim and ".World\r\n" is
delivered instead of the "World\r\n" the claim requires for every position. -/
theorem c1_first_body_line_dot_kept :
    (do_data msRP ["DATA".toList] ["Hello\r\n".toList, ".World\r\n".toList, ".\r\n".toList] =
      some ⟨⟨⟨State.Data_input_done, none, none, none⟩, 0, [reply354, reply250data]⟩,
            some ("Hello\r\nWorld\r\n".toList, some ["alice".toList])⟩) ∧
    (do_data msRP ["DATA".toList] [".World\r\n".toList, ".\r\n".toList] =
      some ⟨⟨⟨State.Data_input_done, none, none, none⟩, 0, [reply354, reply250data]⟩,
            some (".World\r\n".toList, some ["alice".toList])⟩) ∧
    ((".World\r\n".toList == "World\r\n".toList) = false) := by
  refine ⟨by decide, by decide, by decide⟩

/-- C2: On an input line consisting only of whitespace, the trailing
whitespace stripping loop of handle_client (mysmtpd.c lines 500-501)
decrements len to 0 and then evaluates recvbuf[-1], reading the line buffer
below index 0; there is no defined path on which a 500 reply is produced.
A line with a non-whitespace character is stripped in bounds. -/
theorem c2_blank_line_strip_reads_below_index_zero :
    stripTrailingC ("   \r\n".toList) = none ∧
    stripTrailingC ("NOOP \r\n".toList) = some ("NOOP".toList) := by
  refine ⟨by decide, by decide⟩

/-- C3: The DATA loop guard `(len = nb_read_line(...)) >= 0` (mysmtpd.c
line 353) compares a size_t and is true for every return value of
nb_read_line, including the -1 of a failed read, so the loop can never exit
to the failure path; the post-loop code (lines 429-430), were it reachable,
sends "501\n" — not a well-formed reply (no space, no text, no CRLF) — and
returns 1 (Reject), not the -1 that terminates the session. In the
embedding a stream that ends before the terminator therefore has no
defined result. -/
theorem c3_data_eof_guard_vacuous_reply_malformed :
    (∀ r : Int, nbReadLoopGuard r = true) ∧
    (do_data msRP ["DATA".toList] ["Hello\r\n".toList] = none) ∧
    wellFormedReply data_eof_reply = false ∧
    ((data_eof_ret == (-1 : Int)) = false) := by
  refine ⟨fun r => ?_, by decide, by decide, by decide⟩
  simp [nbReadLoopGuard]

/-- C9: The command loop guard of handle_client (mysmtpd.c line 483) also
compares a size_t with 0 and is true for every value nb_read_line can
return: the loop's exit condition is unreachable, on a failed read (-1) the
stored length is 2^64 - 1 and the very next access recvbuf[len - 1] lies
far beyond the 1025-byte receive buffer. -/
theorem c9_session_loop_exit_condition_unreachable :
    (∀ r : Int, nbReadLoopGuard r = true) ∧
    sizeTVal (-1) = 2 ^ 64 - 1 ∧
    decide (MAX_LINE_LENGTH + 1 < sizeTVal (-1) - 1) = true := by
  refine ⟨fun r => ?_, by decide, by decide⟩
  simp [nbReadLoopGuard]

/-- C10: The trailing-whitespace stripping loop of the DATA accumulator
(mysmtpd.c lines 361-362) reads the buffer below index 0 on a line that
consists entirely of whitespace: an ordinary empty body line "\r\n" drives
len to 0 and the guard then evaluates recvbuf[-1]. Lines with some
non-whitespace character are stripped within bounds. -/
theorem c10_data_strip_loop_below_zero_on_whitespace_line :
    stripTrailingC ("\r\n".toList) = none ∧
    stripTrailingC ("Hi \r\n".toList) = some ("Hi".toList) := by
  refine ⟨by decide, by decide⟩

-- Parser lemmas shared by the argument-handling claims.

/-- A word accepted by the MAIL argument test has at least the 7 characters
of `FROM:<` plus `>`: a 6-character word matching the prefix necessarily
ends in `<`, not `>`. -/
theorem mailArgOK_length {w : List Char} (h : mailArgOK w = true) : 7 ≤ w.length := by
  unfold mailArgOK strncaseEq at h
  rw [Bool.and_eq_true, beq_iff_eq, beq_iff_eq] at h
  obtain ⟨h1, h2⟩ := h
  have hlen := congrArg List.length h1
  simp only [List.length_map] at hlen
  simp [List.length_take] at hlen
  have h6 : 6 ≤ w.length := by omega
  by_contra hlt
  have h66 : w.length = 6 := by omega
  have htake : w.take 6 = w := List.take_of_length_le (by omega)
  rw [htake] at h1
  have h5 : (w.map tolowerC)[5]? = some '<' := by
    rw [h1]; decide
  rw [List.getElem?_map] at h5
  have hlast : w.getLast? = w[5]? := by
    rw [List.getLast?_eq_getElem?, h66]
  rw [List.getLastD_eq_getLast?, hlast] at h2
  rcases h5' : w[5]? with _ | c
  · rw [h5'] at h5; simp at h5
  · rw [h5'] at h5 h2
    simp at h5 h2
    rw [h2] at h5
    revert h5
    decide

/-- A word accepted by the RCPT argument test has at least the 5 characters
of `TO:<` plus `>`. -/
theorem rcptArgOK_length {w : List Char} (h : rcptArgOK w = true) : 5 ≤ w.length := by
  unfold rcptArgOK strncaseEq at h
  rw [Bool.and_eq_true, beq_iff_eq, beq_iff_eq] at h
  obtain ⟨h1, h2⟩ := h
  have hlen := congrArg List.length h1
  simp only [List.length_map] at hlen
  simp [List.length_take] at hlen
  have h4 : 4 ≤ w.length := by omega
  by_contra hlt
  have h44 : w.length = 4 := by omega
  have htake : w.take 4 = w := List.take_of_length_le (by omega)
  rw [htake] at h1
  have h3 : (w.map tolowerC)[3]? = some '<' := by
    rw [h1]; decide
  rw [List.getElem?_map] at h3
  have hlast : w.getLast? = w[3]? := by
    rw [List.getLast?_eq_getElem?, h44]
  rw [List.getLastD_eq_getLast?, hlast] at h2
  rcases h3' : w[3]? with _ | c
  · rw [h3'] at h3; simp at h3
  · rw [h3'] at h3 h2
    simp at h3 h2
    rw [h2] at h3
    revert h3
    decide

/-- A well-formed MAIL argument `FROM:<addr>` passes the shape test and the
interior slice recovers exactly `addr`. -/
theorem mail_roundtrip (addr : List Char) :
    mailArgOK ("FROM:<".toList ++ addr ++ ['>']) = true ∧
    parseMailPath ("FROM:<".toList ++ addr ++ ['>']) = addr := by
  constructor
  · unfold mailArgOK strncaseEq
    rw [Bool.and_eq_true, beq_iff_eq, beq_iff_eq]
    constructor
    · rw [List.append_assoc,
        List.take_left' (by decide : ("FROM:<".toList).length = 6)]
      decide
    · exact List.getLastD_concat _ _ _
  · unfold parseMailPath
    rw [List.append_assoc,
      List.drop_left' (by decide : ("FROM:<".toList).length = 6)]
    have hl : ("FROM:<".toList ++ (addr ++ ['>'])).length - 7 = addr.length := by
      simp
    rw [hl, List.take_left' rfl]

/-- A well-formed RCPT argument `TO:<addr>` passes the shape test and the
interior slice recovers exactly `addr`. -/
theorem rcpt_roundtrip (addr : List Char) :
    rcptArgOK ("TO:<".toList ++ addr ++ ['>']) = true ∧
    parseRcptPath ("TO:<".toList ++ addr ++ ['>']) = addr := by
  constructor
  · unfold rcptArgOK strncaseEq
    rw [Bool.and_eq_true, beq_iff_eq, beq_iff_eq]
    constructor
    · rw [List.append_assoc,
        List.take_left' (by decide : ("TO:<".toList).length = 4)]
      decide
    · exact List.getLastD_concat _ _ _
  · unfold parseRcptPath
    rw [List.append_assoc,
      List.drop_left' (by decide : ("TO:<".toList).length = 4)]
    have hl : ("TO:<".toList ++ (addr ++ ['>'])).length - 5 = addr.length := by
      simp
    rw [hl, List.take_left' rfl]

/-- Claim C5: for every address `addr` the single argument word `FROM:<addr>`
(MAIL) or `TO:<addr>` (RCPT) parses back to exactly `addr`; every argument
word shorter than the required prefix-plus-suffix length (7 for MAIL, 5 for
RCPT) draws the 501 syntax reply with the session unchanged; and whenever
the shape test passes, the interior slice length computed by the C code is
non-negative. -/
theorem c5_path_roundtrip_and_min_length :
    (∀ addr : List Char,
      mailArgOK ("FROM:<".toList ++ addr ++ ['>']) = true ∧
      parseMailPath ("FROM:<".toList ++ addr ++ ['>']) = addr) ∧
    (∀ addr : List Char,
      rcptArgOK ("TO:<".toList ++ addr ++ ['>']) = true ∧
      parseRcptPath ("TO:<".toList ++ addr ++ ['>']) = addr) ∧
    (∀ (ms : smtp_state) (v w : List Char), w.length < 7 →
      do_mail ms [v, w] = ⟨ms, 1, [reply501params]⟩) ∧
    (∀ (valid : List Char → Bool) (ms : smtp_state) (v w : List Char), w.length < 5 →
      do_rcpt valid ms [v, w] = ⟨ms, 1, [reply501params]⟩) ∧
    (∀ w : List Char, mailArgOK w = true → 0 ≤ mailSliceLen w) ∧
    (∀ w : List Char, rcptArgOK w = true → 0 ≤ rcptSliceLen w) := by
  refine ⟨mail_roundtrip, rcpt_roundtrip, ?_, ?_, ?_, ?_⟩
  · intro ms v w hw
    have hfalse : mailArgOK w = false := by
      rcases h : mailArgOK w with _ | _
      · rfl
      · exact absurd (mailArgOK_length h) (by omega)
    unfold do_mail
    simp [hfalse]
  · intro valid ms v w hw
    have hfalse : rcptArgOK w = false := by
      rcases h : rcptArgOK w with _ | _
      · rfl
      · exact absurd (rcptArgOK_length h) (by omega)
    unfold do_rcpt
    simp [hfalse]
  · intro w h
    have := mailArgOK_length h
    unfold mailSliceLen
    omega
  · intro w h
    have := rcptArgOK_length h
    unfold rcptSliceLen
    omega

/-- Witness for C5 at concrete inputs. -/
theorem c5_path_roundtrip_witness :
    parseMailPath ("FROM:<".toList ++ "bob@x".toList ++ ['>']) = "bob@x".toList ∧
    parseRcptPath ("TO:<".toList ++ "alice".toList ++ ['>']) = "alice".toList ∧
    do_mail msGreeted ["MAIL".toList, "FROM".toList] = ⟨msGreeted, 1, [reply501params]⟩ ∧
    0 ≤ mailSliceLen ("FROM:<>".toList) :=
  ⟨(c5_path_roundtrip_and_min_length.1 _).2,
   (c5_path_roundtrip_and_min_length.2.1 _).2,
   c5_path_roundtrip_and_min_length.2.2.1 msGreeted _ _ (by decide),
   c5_path_roundtrip_and_min_length.2.2.2.2.1 _ (by decide)⟩

/-- Claim C6: MAIL succeeds exactly when the state is Executed_Helo
(Greeted) or Data_input_done (DataComplete) and its single argument is
well-formed; on success the recipient list is empty, the reverse path holds
exactly the parsed address (whatever the buffers held before), the state is
Mail_transaction_open and the reply is the 250 line. -/
theorem c6_mail_success_iff_postconditions :
    ∀ (ms : smtp_state) (ws : List (List Char)),
      ((do_mail ms ws).ret = 0 ↔
        (ws.length = 2 ∧ mailArgOK (ws.getD 1 []) = true ∧
          (ms.state = State.Executed_Helo ∨ ms.state = State.Data_input_done))) ∧
      ((do_mail ms ws).ret = 0 →
        do_mail ms ws = ⟨⟨State.Mail_transaction_open,
          some [parseMailPath (ws.getD 1 [])], none, none⟩, 0, [reply250mail]⟩) := by
  intro ms ws
  unfold do_mail
  split_ifs with h1 h2 h3
  · refine ⟨iff_of_false (fun h => by simp at h) ?_, fun h => by simp at h⟩
    rintro ⟨hl, _, _⟩
    exact h1 hl
  · refine ⟨iff_of_false (fun h => by simp at h) ?_, fun h => by simp at h⟩
    rintro ⟨_, hok, _⟩
    rw [h2] at hok
    exact absurd hok (by decide)
  · have h1' : ws.length = 2 := not_ne_iff.mp h1
    have h2' : mailArgOK (ws.getD 1 []) = true := by
      rcases hb : mailArgOK (ws.getD 1 []) with _ | _
      · exact absurd hb h2
      · rfl
    exact ⟨iff_of_true rfl ⟨h1', h2', h3⟩, fun _ => rfl⟩
  · refine ⟨iff_of_false (fun h => by simp at h) ?_, fun h => by simp at h⟩
    rintro ⟨_, _, hst⟩
    exact h3 hst

/-- Witness for C6: a successful MAIL from Data_input_done with stale
buffers ends with exactly the parsed path, no recipients, no body. -/
theorem c6_mail_success_witness :
    do_mail ⟨State.Data_input_done, some ["old".toList], some ["x".toList], some "junk".toList⟩
        ["MAIL".toList, "FROM:<bob@x>".toList] =
      ⟨⟨State.Mail_transaction_open, some [parseMailPath ("FROM:<bob@x>".toList)], none, none⟩,
        0, [reply250mail]⟩ :=
  (c6_mail_success_iff_postconditions _ _).2 (by decide)

/-- Claim C8: for every verb/state pair outside the transition table, a
command with well-formed arguments draws the 503 reply and the handler
leaves the whole session record (state, reverse path, recipients, message
body) unchanged. -/
theorem c8_wrong_state_503_frame_unchanged :
    (∀ (nodename : String) (ms : smtp_state) (ws : List (List Char)),
      ws.length = 2 → ms.state ≠ State.Init →
      do_helo nodename ms ws = ⟨ms, 1, [reply503wrong]⟩) ∧
    (∀ (ms : smtp_state) (ws : List (List Char)),
      ws.length = 2 → mailArgOK (ws.getD 1 []) = true →
      ms.state ≠ State.Executed_Helo → ms.state ≠ State.Data_input_done →
      do_mail ms ws = ⟨ms, 1, [reply503wrong]⟩) ∧
    (∀ (valid : List Char → Bool) (ms : smtp_state) (ws : List (List Char)),
      ws.length = 2 → rcptArgOK (ws.getD 1 []) = true →
      ms.state ≠ State.Mail_transaction_open → ms.state ≠ State.Recipient_provided →
      do_rcpt valid ms ws = ⟨ms, 1, [reply503wrong]⟩) ∧
    (∀ (ms : smtp_state) (ws : List (List Char)) (lines : List (List Char)),
      ws.length = 1 → ms.state ≠ State.Recipient_provided →
      do_data ms ws lines = some ⟨⟨ms, 1, [reply503wrong]⟩, none⟩) := by
  refine ⟨?_, ?_, ?_, ?_⟩
  · intro nodename ms ws hl hst
    unfold do_helo
    rw [if_neg (by omega), if_pos hst]
  · intro ms ws hl hok hst1 hst2
    unfold do_mail
    rw [if_neg (by omega), if_neg (by rw [hok]; decide), if_neg (not_or.mpr ⟨hst1, hst2⟩)]
  · intro valid ms ws hl hok hst1 hst2
    unfold do_rcpt
    rw [if_neg (by omega), if_neg (by rw [hok]; decide), if_neg (not_or.mpr ⟨hst1, hst2⟩)]
  · intro ms ws lines hl hst
    unfold do_data
    rw [if_neg (by omega), if_neg hst]

/-- Witness for C8: DATA issued in Executed_Helo gets 503 and an unchanged
session record. -/
theorem c8_wrong_state_witness :
    do_data msGreeted ["DATA".toList] ["x\r\n".toList] =
      some ⟨⟨msGreeted, 1, [reply503wrong]⟩, none⟩ :=
  c8_wrong_state_503_frame_unchanged.2.2.2 msGreeted _ _ (by decide) (by decide)

/-- Claim C4, counterexample: HELO with a malformed argument count issued in
the wrong state Executed_Helo draws the 501 reply, not the 503 reply the
claim requires when the state is wrong. -/
theorem c4_state_first_counterexample :
    do_helo "host" msGreeted ["HELO".toList] = ⟨msGreeted, 1, [reply501args]⟩ ∧
    (((do_helo "host" msGreeted ["HELO".toList]).replies == [reply503wrong]) = false) := by
  refine ⟨by decide, by decide⟩

/-- Claim C4 as amended: the argument-count/shape check comes first for all
four commands (HELO/EHLO, MAIL, RCPT, DATA), so a malformed command draws
501 even in a wrong state; a well-formed HELO/EHLO or DATA in a wrong state
draws 503; in all these error cases the session record is unchanged. -/
theorem c4_args_checked_first_all_commands :
    (∀ (nodename : String) (ms : smtp_state) (ws : List (List Char)), ws.length ≠ 2 →
      do_helo nodename ms ws = ⟨ms, 1, [reply501args]⟩) ∧
    (∀ (ms : smtp_state) (ws : List (List Char)) (lines : List (List Char)), ws.length ≠ 1 →
      do_data ms ws lines = some ⟨⟨ms, 1, [reply501params]⟩, none⟩) ∧
    (∀ (ms : smtp_state) (ws : List (List Char)), ws.length ≠ 2 →
      do_mail ms ws = ⟨ms, 1, [reply501params]⟩) ∧
    (∀ (ms : smtp_state) (ws : List (List Char)), mailArgOK (ws.getD 1 []) = false →
      do_mail ms ws = ⟨ms, 1, [reply501params]⟩) ∧
    (∀ (valid : List Char → Bool) (ms : smtp_state) (ws : List (List Char)), ws.length ≠ 2 →
      do_rcpt valid ms ws = ⟨ms, 1, [reply501params]⟩) ∧
    (∀ (valid : List Char → Bool) (ms : smtp_state) (ws : List (List Char)),
      rcptArgOK (ws.getD 1 []) = false →
      do_rcpt valid ms ws = ⟨ms, 1, [reply501params]⟩) ∧
    (∀ (nodename : String) (ms : smtp_state) (ws : List (List Char)),
      ws.length = 2 → ms.state ≠ State.Init →
      do_helo nodename ms ws = ⟨ms, 1, [reply503wrong]⟩) ∧
    (∀ (ms : smtp_state) (ws : List (List Char)) (lines : List (List Char)),
      ws.length = 1 → ms.state ≠ State.Recipient_provided →
      do_data ms ws lines = some ⟨⟨ms, 1, [reply503wrong]⟩, none⟩) := by
  refine ⟨?_, ?_, ?_, ?_, ?_, ?_, ?_, ?_⟩
  · intro nodename ms ws hl
    unfold do_helo
    rw [if_pos hl]
  · intro ms ws lines hl
    unfold do_data
    rw [if_pos hl]
  · intro ms ws hl
    unfold do_mail
    rw [if_pos hl]
  · intro ms ws hok
    unfold do_mail
    by_cases hl : ws.length ≠ 2
    · rw [if_pos hl]
    · rw [if_neg hl, if_pos hok]
  · intro valid ms ws hl
    unfold do_rcpt
    rw [if_pos hl]
  · intro valid ms ws hok
    unfold do_rcpt
    by_cases hl : ws.length ≠ 2
    · rw [if_pos hl]
    · rw [if_neg hl, if_pos hok]
  · intro nodename ms ws hl hst
    unfold do_helo
    rw [if_neg (by omega), if_pos hst]
  · intro ms ws lines hl hst
    unfold do_data
    rw [if_neg (by omega), if_neg hst]

/-- Witness for the amended C4 at concrete inputs. -/
theorem c4_args_checked_first_witness :
    do_helo "host" msRP ["HELO".toList] = ⟨msRP, 1, [reply501args]⟩ ∧
    do_mail msGreeted ["MAIL".toList, "FROM:bad".toList] = ⟨msGreeted, 1, [reply501params]⟩ :=
  ⟨c4_args_checked_first_all_commands.1 "host" msRP _ (by decide),
   c4_args_checked_first_all_commands.2.2.2.1 msGreeted _ (by decide)⟩

/-- The invariant behind C7, strengthened to be inductive: in the two states
where RCPT may append a recipient the reverse path is present, and a
non-NULL forward-path buffer implies a non-NULL reverse-path buffer. -/
def GoodMS (ms : smtp_state) : Prop :=
  ((ms.state = State.Mail_transaction_open ∨ ms.state = State.Recipient_provided) →
    ms.reverse_path_buffer ≠ none) ∧
  (ms.forward_path_buffer ≠ none → ms.reverse_path_buffer ≠ none)

/-- Whenever the DATA loop returns normally it has passed the terminator
branch: all three buffers cleared, state Data_input_done, return code 0. -/
theorem dataLoop_ms_cleared :
    ∀ (lines : List (List Char)) (ms : smtp_state) (dr : DataRes),
      dataLoop ms lines = some dr →
      dr.res.ms = ⟨State.Data_input_done, none, none, none⟩ ∧ dr.res.ret = 0 := by
  intro lines
  induction lines with
  | nil =>
    intro ms dr h
    simp [dataLoop] at h
  | cons l rest ih =>
    intro ms dr h
    simp only [dataLoop] at h
    split at h
    · exact ih ms dr h
    · split at h
      · exact absurd h (by simp)
      · split at h
        · rw [Option.some.injEq] at h
          rw [← h]
          exact ⟨rfl, rfl⟩
        · exact ih _ dr h

/-- `do_helo` preserves the C7 invariant. -/
theorem good_do_helo (nodename : String) (ms : smtp_state) (ws : List (List Char))
    (hg : GoodMS ms) : GoodMS (do_helo nodename ms ws).ms := by
  unfold do_helo
  split_ifs
  · exact hg
  · exact hg
  · constructor
    · rintro (h | h) <;> simp at h
    · intro h; exact absurd rfl h

/-- `do_mail` preserves the C7 invariant. -/
theorem good_do_mail (ms : smtp_state) (ws : List (List Char))
    (hg : GoodMS ms) : GoodMS (do_mail ms ws).ms := by
  unfold do_mail
  split_ifs
  · exact hg
  · exact hg
  · constructor
    · intro _; simp
    · intro _; simp
  · exact hg

/-- `do_rcpt` preserves the C7 invariant: the append branch runs only in
the two states where the invariant guarantees a reverse path. -/
theorem good_do_rcpt (valid : List Char → Bool) (ms : smtp_state) (ws : List (List Char))
    (hg : GoodMS ms) : GoodMS (do_rcpt valid ms ws).ms := by
  unfold do_rcpt
  split_ifs with h1 h2 h3 h4
  · exact hg
  · exact hg
  · constructor
    · intro _; exact hg.1 h3
    · intro _; exact hg.1 h3
  · exact hg
  · exact hg

/-- `do_rset` preserves the C7 invariant. -/
theorem good_do_rset (ms : smtp_state) (ws : List (List Char))
    (hg : GoodMS ms) : GoodMS (do_rset ms ws).ms := by
  unfold do_rset
  split_ifs
  · exact hg
  · constructor
    · rintro (h | h) <;> simp at h
    · intro h; exact absurd rfl h
  · exact hg

/-- `do_vrfy` preserves the C7 invariant. -/
theorem good_do_vrfy (valid : List Char → Bool) (ms : smtp_state) (ws : List (List Char))
    (hg : GoodMS ms) : GoodMS (do_vrfy valid ms ws).ms := by
  unfold do_vrfy
  split_ifs <;> exact hg

/-- `do_data` preserves the C7 invariant. -/
theorem good_do_data (ms : smtp_state) (ws : List (List Char)) (lines : List (List Char))
    (dr : DataRes) (hg : GoodMS ms) (h : do_data ms ws lines = some dr) :
    GoodMS dr.res.ms := by
  unfold do_data at h
  split_ifs at h with h1 h2
  · rw [Option.some.injEq] at h
    rw [← h]
    exact hg
  · split at h
    · exact absurd h (by simp)
    · rw [Option.some.injEq] at h
      rw [← h]
      have hc := dataLoop_ms_cleared _ _ _ (by assumption)
      simp only [hc.1]
      constructor
      · rintro (hx | hx) <;> simp at hx
      · intro hx; exact absurd rfl hx
  · rw [Option.some.injEq] at h
    rw [← h]
    exact hg

/-- One dispatched command preserves the C7 invariant. -/
theorem good_stepCmd (valid : List Char → Bool) (nodename : String) (ms ms2 : smtp_state)
    (c : Cmd) (hg : GoodMS ms) (h : stepCmd valid nodename ms c = some ms2) : GoodMS ms2 := by
  cases c with
  | helo ws =>
    simp only [stepCmd, Option.some.injEq] at h
    rw [← h]; exact good_do_helo nodename ms ws hg
  | mail ws =>
    simp only [stepCmd, Option.some.injEq] at h
    rw [← h]; exact good_do_mail ms ws hg
  | rcpt ws =>
    simp only [stepCmd, Option.some.injEq] at h
    rw [← h]; exact good_do_rcpt valid ms ws hg
  | data ws lines =>
    simp only [stepCmd] at h
    cases hdo : do_data ms ws lines with
    | none => rw [hdo] at h; simp at h
    | some dr =>
      rw [hdo] at h
      simp only [Option.map_some', Option.some.injEq] at h
      rw [← h]
      exact good_do_data ms ws lines dr hg hdo
  | rset ws =>
    simp only [stepCmd, Option.some.injEq] at h
    rw [← h]; exact good_do_rset ms ws hg
  | vrfy ws =>
    simp only [stepCmd, Option.some.injEq] at h
    rw [← h]; exact good_do_vrfy valid ms ws hg
  | noop =>
    simp only [stepCmd, Option.some.injEq] at h
    rw [← h]; exact hg
  | quit => simp [stepCmd] at h
  | unrecognized =>
    simp only [stepCmd, Option.some.injEq] at h
    rw [← h]; exact hg
  | notImplemented =>
    simp only [stepCmd, Option.some.injEq] at h
    rw [← h]; exact hg

/-- The C7 invariant holds along every defined command sequence. -/
theorem good_runCmds (valid : List Char → Bool) (nodename : String) :
    ∀ (cs : List Cmd) (ms0 ms : smtp_state), GoodMS ms0 →
      runCmds valid nodename ms0 cs = some ms → GoodMS ms := by
  intro cs
  induction cs with
  | nil =>
    intro ms0 ms hg h
    simp only [runCmds, Option.some.injEq] at h
    rw [← h]; exact hg
  | cons c cs ih =>
    intro ms0 ms hg h
    simp only [runCmds] at h
    cases hstep : stepCmd valid nodename ms0 c with
    | none => rw [hstep] at h; simp at h
    | some ms1 =>
      rw [hstep] at h
      exact ih ms1 ms (good_stepCmd valid nodename ms0 ms1 c hg hstep) h

/-- Claim C7: in every session state reachable from the initial state by a
command sequence, a non-empty recipient list implies the reverse path is
present; and the three buffers are cleared together at RSET outside Init,
at the reset step of a successful MAIL (before the reverse path is set),
and at the end-of-DATA hand-off. -/
theorem c7_recipients_require_reverse_path :
    (∀ (valid : List Char → Bool) (nodename : String) (cs : List Cmd) (ms : smtp_state),
      runCmds valid nodename initMS cs = some ms →
      recipients ms ≠ [] → ms.reverse_path_buffer ≠ none) ∧
    (∀ (ms : smtp_state) (ws : List (List Char)), ws.length = 1 → ms.state ≠ State.Init →
      (do_rset ms ws).ms = ⟨State.Executed_Helo, none, none, none⟩) ∧
    (∀ (ms : smtp_state) (ws : List (List Char)), (do_mail ms ws).ret = 0 →
      (do_mail ms ws).ms.forward_path_buffer = none ∧
      (do_mail ms ws).ms.mail_data_buffer = none) ∧
    (∀ (ms : smtp_state) (ws : List (List Char)) (lines : List (List Char)) (dr : DataRes),
      do_data ms ws lines = some dr → dr.res.ret = 0 →
      dr.res.ms = ⟨State.Data_input_done, none, none, none⟩) := by
  refine ⟨?_, ?_, ?_, ?_⟩
  · intro valid nodename cs ms h hrec
    have hinit : GoodMS initMS := by
      constructor
      · rintro (hx | hx) <;> simp [initMS] at hx
      · intro hx; exact absurd rfl hx
    have hg : GoodMS ms := good_runCmds valid nodename cs initMS ms hinit h
    apply hg.2
    intro hfwd
    apply hrec
    unfold recipients
    rw [hfwd]
    rfl
  · intro ms ws hl hst
    unfold do_rset
    rw [if_neg (by omega), if_pos hst]
    cases ms
    rfl
  · intro ms ws h
    unfold do_mail at h ⊢
    split_ifs at h ⊢ with h1 h2 h3
    · simp at h
    · simp at h
    · exact ⟨rfl, rfl⟩
    · simp at h
  · intro ms ws lines dr h hret
    unfold do_data at h
    split_ifs at h with h1 h2
    · rw [Option.some.injEq] at h
      rw [← h] at hret
      simp at hret
    · split at h
      · exact absurd h (by simp)
      · rw [Option.some.injEq] at h
        have hc := dataLoop_ms_cleared _ _ _ (by assumption)
        rw [← h]
        exact hc.1
    · rw [Option.some.injEq] at h
      rw [← h] at hret
      simp at hret

/-- Witness for C7: a concrete HELO, MAIL, RCPT run reaches a state with a
recipient, and the theorem yields the reverse path being present there. -/
theorem c7_recipients_require_reverse_path_witness :
    (runCmds (fun _ => true) "host" initMS
      [Cmd.helo ["HELO".toList, "me".toList],
       Cmd.mail ["MAIL".toList, "FROM:<bob@x>".toList],
       Cmd.rcpt ["RCPT".toList, "TO:<alice>".toList]] =
      some ⟨State.Recipient_provided, some ["bob@x".toList], some ["alice".toList], none⟩) ∧
    (⟨State.Recipient_provided, some ["bob@x".toList], some ["alice".toList],
      none⟩ : smtp_state).reverse_path_buffer ≠ none :=
  ⟨by decide,
   c7_recipients_require_reverse_path.1 (fun _ => true) "host"
     [Cmd.helo ["HELO".toList, "me".toList],
      Cmd.mail ["MAIL".toList, "FROM:<bob@x>".toList],
      Cmd.rcpt ["RCPT".toList, "TO:<alice>".toList]] _ (by decide) (by decide)⟩
